import Mathlib

/-!
Shallow embedding of voice-service/voice_server.py (ConRad Voice Transcription
Service): the lazy model manager get_model (lines 29 to 35), the /health
endpoint (lines 62 to 68) and the /transcribe endpoint (lines 70 to 129).

Python strings are Lean strings, byte sequences are lists of naturals, the
shared module-level variable model is an Option Nat (a model handle is
identified by a number), and the outcomes of the two external calls
whisper.load_model and whisper_model.transcribe are oracle parameters, so all
control paths of the endpoint are represented.  Exceptions are values of PyErr;
the blanket except-Exception handler on lines 127 to 129 turns any of them into
an HTTP 500 response whose detail is the Python rendering str(e) of the
exception.
-/

namespace VoiceServer

/-- Test whether the first list of characters is an initial segment of the
second; helper for the substring test below. -/
def startsWithChars : List Char → List Char → Bool
  | [], _ => true
  | _ :: _, [] => false
  | a :: as, b :: bs => a == b && startsWithChars as bs

/-- Test whether the first list of characters occurs contiguously inside the
second. -/
def hasSubChars (pat : List Char) : List Char → Bool
  | [] => startsWithChars pat []
  | c :: cs => startsWithChars pat (c :: cs) || hasSubChars pat cs

/-- Substring test on strings: Lean rendering of the Python operator in on
strings, as used on line 83 of voice_server.py. -/
def strContains (hay pat : String) : Bool :=
  hasSubChars pat.data hay.data

/-- Index of the last occurrence of a character in a list, if any. -/
def rfindIdx (c : Char) : List Char → Option Nat
  | [] => none
  | a :: as =>
    match rfindIdx c as with
    | some i => some (i + 1)
    | none => if a == c then some 0 else none

/-- Extension part of os.path.splitext (posixpath: separator is the slash,
extension separator the dot): the suffix from the last dot on, provided that
dot lies after the last separator and at least one character strictly between
the separator and that dot is not itself a dot (so a basename consisting of
leading dots has no extension).  Mirrors genericpath in CPython. -/
def splitextExt (p : String) : String :=
  let l := p.data
  let sepIndex : Int := match rfindIdx '/' l with | some i => (i : Int) | none => -1
  let dotIndex : Int := match rfindIdx '.' l with | some i => (i : Int) | none => -1
  if sepIndex < dotIndex then
    let filenameStart := (sepIndex + 1).toNat
    let between := (l.drop filenameStart).take (dotIndex.toNat - filenameStart)
    if between.any (fun c => c != '.') then String.mk (l.drop dotIndex.toNat) else ""
  else ""

/-- Lower-casing of a string, character by character (Python str.lower; the
ASCII range is what matters for the extensions compared below). -/
def strLower (s : String) : String := String.mk (s.data.map Char.toLower)

/-- Extension allow-list of line 86 of voice_server.py. -/
def allowedExts : List String := [".webm", ".wav", ".mp3", ".m4a", ".ogg"]

/-- Exceptions the body of transcribe_audio can raise before the blanket
handler on lines 127 to 129 sees them: the explicit HTTPException of line 87,
the TypeError of os.path.splitext applied to a missing filename (line 85), and
the NameError of the unbound names on lines 110 and 117.  Failures of the two
whisper calls are carried directly as message strings by the oracles below. -/
inductive PyErr where
  | httpExc (status : Nat) (detail : String)
  | typeError (msg : String)
  | nameError (n : String)
deriving DecidableEq

/-- Python rendering str(e) of the exception, as Starlette renders
HTTPException (status, colon, detail) and CPython renders TypeError and
NameError; this is what line 129 places into the detail field of the 500
response. -/
def PyErr.str : PyErr → String
  | .httpExc status detail => toString status ++ ": " ++ detail
  | .typeError msg => msg
  | .nameError n => "name \x27" ++ n ++ "\x27 is not defined"

/-- Media-type validation, lines 82 to 90 of voice_server.py: accept when the
declared content-type (None coerced to the empty string by line 82) contains
audio or video/webm as a substring; otherwise fall back to the lower-cased
filename extension checked against the allow-list.  The value none means
validation passed, some e means it raised e.  A missing filename on the
fallback path reaches os.path.splitext(None), which raises TypeError.  The byte
content of the upload is never consulted here. -/
def validate_file_type (declared : Option String) (filename : Option String) : Option PyErr :=
  let content_type := declared.getD ""
  if strContains content_type "audio" || strContains content_type "video/webm" then
    none
  else
    match filename with
    | none => some (.typeError "expected str, bytes or os.PathLike object, not NoneType")
    | some fn =>
      let ext := strLower (splitextExt fn)
      if ext ∈ allowedExts then none
      else some (.httpExc 400 ("Unsupported file type: " ++ content_type ++
        ". Use webm, wav, mp3, m4a, or ogg"))

/-- Local variables of transcribe_audio: its parameter and every assignment
target in its body, lines 71 to 106 of voice_server.py. -/
def transcribeLocalNames : List String :=
  ["file", "allowed_types", "content_type", "ext", "temp_file", "content",
   "temp_path", "whisper_model", "result", "full_text"]

/-- Module-level names of voice_server.py: its imports and its own
definitions. -/
def moduleGlobalNames : List String :=
  ["FastAPI", "File", "UploadFile", "HTTPException", "CORSMiddleware", "whisper",
   "tempfile", "os", "uvicorn", "torch", "app", "model", "get_model",
   "startup_event", "root", "health_check", "transcribe_audio", "__name__"]

/-- Python builtin names (the portion relevant to this module; neither segments
nor info is a builtin). -/
def pythonBuiltinNames : List String :=
  ["print", "len", "str", "int", "float", "bool", "bytes", "list", "dict", "set",
   "tuple", "range", "any", "all", "open", "type", "isinstance", "getattr",
   "setattr", "hasattr", "repr", "map", "zip", "enumerate", "sorted", "min",
   "max", "sum", "abs", "Exception", "BaseException", "ValueError", "TypeError",
   "KeyError", "NameError", "OSError", "RuntimeError", "StopIteration"]

/-- Python name resolution for the free names of the expressions on lines 110
and 117 of voice_server.py: a name bound in no local, module or builtin scope
raises NameError when evaluated. -/
def resolveName (n : String) : Except PyErr Unit :=
  if n ∈ transcribeLocalNames ++ moduleGlobalNames ++ pythonBuiltinNames then
    Except.ok ()
  else
    Except.error (.nameError n)

/-- HTTP response of the /transcribe endpoint: the success payload of lines 114
to 120, or an error status with a detail string (raising HTTPException on line
87 or 129 makes FastAPI send such an error response).  The float fields of the
payload are carried as integers; they are never produced (see
response_shaping). -/
inductive Response where
  | success (text language : String) (language_probability duration : Int)
  | error (status : Nat) (detail : String)
deriving DecidableEq

/-- Result shaping, lines 106 to 120 of voice_server.py.  Line 106 binds
full_text to the text field of the result.  Line 110 rebinds it to a join over
segments, but the name segments is bound nowhere in any scope, so evaluating
the comprehension iterable raises NameError before anything else happens;
lines 117 to 119 would likewise read the unbound name info.  Both ok branches
below are therefore dead code, mirroring the dead lines of the source; the
placeholder payload they carry is never produced. -/
def response_shaping (resultText : String) : Except PyErr Response :=
  let full_text := resultText
  match resolveName "segments" with
  | .error e => .error e
  | .ok _ =>
    match resolveName "info" with
    | .error e => .error e
    | .ok _ => .ok (.success full_text.trim "" 0 0)

/-- Outcome of one call to whisper.load_model (line 33), an oracle. -/
inductive LoadOutcome where
  | ok
  | fail (msg : String)
deriving DecidableEq

/-- Result of one get_model call: what it returns or raises, the value of the
shared module variable model afterwards, and how many successful constructions
the call performed. -/
structure GetModelOutcome where
  result : Except String Nat
  state : Option Nat
  constructed : Nat

/-- Lazy model manager get_model, lines 29 to 35 of voice_server.py: when the
shared variable is already set it is returned unchanged and nothing is
constructed; when it is unset the engine is constructed, and on construction
failure the exception propagates with the variable still unset (the assignment
on line 33 never happened).  A freshly constructed handle is identified by the
number fresh. -/
def get_model (st : Option Nat) (load : LoadOutcome) (fresh : Nat) : GetModelOutcome :=
  match st with
  | some m => ⟨.ok m, some m, 0⟩
  | none =>
    match load with
    | .ok => ⟨.ok fresh, some fresh, 1⟩
    | .fail msg => ⟨.error msg, none, 0⟩

/-- Iterated calls of get_model: the final state and the total number of
successful constructions, with a distinct fresh handle number per call. -/
def run_get_model : Option Nat → Nat → List LoadOutcome → Option Nat × Nat
  | st, _, [] => (st, 0)
  | st, fresh, l :: ls =>
    let g := get_model st l fresh
    let r := run_get_model g.state (fresh + 1) ls
    (r.1, g.constructed + r.2)

/-- Outcome of one whisper_model.transcribe call on the staged bytes
(line 104), an oracle: the text field of the result, or an exception message. -/
inductive ModelCallOutcome where
  | ok (text : String)
  | fail (msg : String)
deriving DecidableEq

/-- One multipart upload: declared content-type and filename (each possibly
missing) and the byte content. -/
structure Upload where
  content_type : Option String
  filename : Option String
  content : List Nat
deriving DecidableEq

/-- Observable events of one /transcribe request, in program order. -/
inductive Event where
  | staged (content : List Nat)
  | calledGetModel
  | invokedModel (fileContent : List Nat)
  | deletedTempFile
deriving DecidableEq

/-- What one /transcribe call produces: the HTTP response, the event trace,
whether the staged temporary file is still on disk afterwards, and the shared
model variable afterwards. -/
structure RunResult where
  response : Response
  trace : List Event
  tempFileOnDisk : Bool
  modelState : Option Nat
deriving DecidableEq

/-- Event trace of a request that reached the model invocation. -/
def fullTrace (c : List Nat) : List Event :=
  [.staged c, .calledGetModel, .invokedModel c, .deletedTempFile]

/-- The /transcribe endpoint, lines 70 to 129 of voice_server.py.  Control
flow: validate (lines 82 to 90); stage the bytes to a NamedTemporaryFile
(lines 93 to 96; the oracle stageFail is some msg when the write on line 95
raises, in which case the file created by NamedTemporaryFile with delete set
to False stays on disk because temp_path was never bound and the inner
try-finally was never entered); then inside the inner try obtain the model
(line 100), invoke it on the staged bytes (line 104) and shape the response
(lines 106 to 120), with the finally block (lines 122 to 125) deleting the
temporary file on every exit of the inner block.  Any exception reaching the
outer handler (lines 127 to 129) becomes an HTTP 500 response whose detail is
str(e) — including the HTTPException(400) of line 87, which the blanket
except-Exception clause also catches. -/
def transcribe_audio (u : Upload) (st : Option Nat) (fresh : Nat)
    (stageFail : Option String) (load : LoadOutcome)
    (call : List Nat → ModelCallOutcome) : RunResult :=
  match validate_file_type u.content_type u.filename with
  | some e => ⟨.error 500 e.str, [], false, st⟩
  | none =>
    match stageFail with
    | some msg => ⟨.error 500 msg, [], true, st⟩
    | none =>
      let g := get_model st load fresh
      match g.result with
      | .error msg =>
        ⟨.error 500 msg, [.staged u.content, .calledGetModel, .deletedTempFile],
          false, g.state⟩
      | .ok _ =>
        match call u.content with
        | .fail msg => ⟨.error 500 msg, fullTrace u.content, false, g.state⟩
        | .ok text =>
          match response_shaping text with
          | .error e => ⟨.error 500 e.str, fullTrace u.content, false, g.state⟩
          | .ok resp => ⟨resp, fullTrace u.content, false, g.state⟩

/-- Response body of GET /health, lines 62 to 68 of voice_server.py. -/
structure HealthResponse where
  status : String
  model_loaded : Bool
  cuda_available : Bool
deriving DecidableEq

/-- The /health endpoint, lines 62 to 68: reads the shared model variable and
the cuda flag, builds the body, and leaves the shared state exactly as it was
(it never calls get_model, so it can never trigger a construction). -/
def health_check (st : Option Nat) (cuda : Bool) : HealthResponse × Option Nat :=
  ({ status := "healthy", model_loaded := st.isSome, cuda_available := cuda }, st)

/-- Result shaping always raises the NameError for segments, whatever text the
model produced: the dead rebinding on line 110 is reached first. -/
lemma response_shaping_nameError (t : String) :
    response_shaping t = .error (.nameError "segments") := rfl

/-- Case analysis of transcribe_audio: every run falls into exactly one of five
branch shapes (validation raised; staging raised; model construction raised;
model invocation raised; model invocation succeeded and shaping raised the
NameError). -/
lemma transcribe_audio_branches (u : Upload) (st : Option Nat) (fresh : Nat)
    (sf : Option String) (load : LoadOutcome) (call : List Nat → ModelCallOutcome) :
    (∃ e, validate_file_type u.content_type u.filename = some e ∧
      transcribe_audio u st fresh sf load call = ⟨.error 500 e.str, [], false, st⟩) ∨
    (validate_file_type u.content_type u.filename = none ∧
      (∃ msg, sf = some msg ∧
        transcribe_audio u st fresh sf load call = ⟨.error 500 msg, [], true, st⟩)) ∨
    (validate_file_type u.content_type u.filename = none ∧ sf = none ∧
      (∃ msg, (get_model st load fresh).result = .error msg ∧
        transcribe_audio u st fresh sf load call =
          ⟨.error 500 msg, [.staged u.content, .calledGetModel, .deletedTempFile],
            false, (get_model st load fresh).state⟩)) ∨
    (validate_file_type u.content_type u.filename = none ∧ sf = none ∧
      (∃ m, (get_model st load fresh).result = .ok m) ∧
      (∃ msg, call u.content = .fail msg ∧
        transcribe_audio u st fresh sf load call =
          ⟨.error 500 msg, fullTrace u.content, false, (get_model st load fresh).state⟩)) ∨
    (validate_file_type u.content_type u.filename = none ∧ sf = none ∧
      (∃ m, (get_model st load fresh).result = .ok m) ∧
      (∃ text, call u.content = .ok text ∧
        transcribe_audio u st fresh sf load call =
          ⟨.error 500 (PyErr.str (.nameError "segments")), fullTrace u.content,
            false, (get_model st load fresh).state⟩)) := by
  cases hv : validate_file_type u.content_type u.filename with
  | some e =>
    exact Or.inl ⟨e, rfl, by simp [transcribe_audio, hv]⟩
  | none =>
    cases sf with
    | some msg =>
      exact Or.inr (Or.inl ⟨rfl, msg, rfl, by simp [transcribe_audio, hv]⟩)
    | none =>
      cases hg : (get_model st load fresh).result with
      | error msg =>
        refine Or.inr (Or.inr (Or.inl ⟨rfl, rfl, msg, rfl, ?_⟩))
        simp [transcribe_audio, hv, hg]
      | ok m =>
        cases hc : call u.content with
        | fail msg =>
          refine Or.inr (Or.inr (Or.inr (Or.inl ⟨rfl, rfl, ⟨m, rfl⟩, msg, rfl, ?_⟩)))
          simp [transcribe_audio, hv, hg, hc]
        | ok text =>
          refine Or.inr (Or.inr (Or.inr (Or.inr ⟨rfl, rfl, ⟨m, rfl⟩, text, rfl, ?_⟩)))
          simp [transcribe_audio, hv, hg, hc, response_shaping_nameError]

/-- C1: the spec says a validated upload whose model call succeeds yields a
success payload with the transcript text; in the code the success path is dead.
With the upload clip.wav of content-type audio/wav and a model call that
succeeds with non-empty text, the endpoint answers HTTP 500 with a NameError
detail, because line 110 reads the unbound name segments before the payload of
lines 114 to 120 can be built. -/
theorem success_path_raises_nameError :
    (transcribe_audio ⟨some "audio/wav", some "clip.wav", [82, 73, 70, 70]⟩ none 0 none
      .ok (fun _ => .ok " Hello world. ")).response =
      .error 500 "name \x27segments\x27 is not defined" := by decide

/-- C2: an upload failing both the content-type check and the extension check
is indeed rejected with the offending type named and with zero model activity
(the trace is empty: nothing staged, no get_model call, no invocation), but
the HTTPException with status 400 raised on line 87 is caught again by the
blanket handler on line 127 and re-raised as HTTP 500, so the client sees
status 500, not the 400 the claim states. -/
theorem rejected_upload_gets_500_and_no_model_call :
    (transcribe_audio ⟨some "text/plain", some "clip.txt", [104, 105]⟩ none 0 none
      .ok (fun _ => .ok "hi")).response =
      .error 500 "400: Unsupported file type: text/plain. Use webm, wav, mp3, m4a, or ogg" ∧
    (transcribe_audio ⟨some "text/plain", some "clip.txt", [104, 105]⟩ none 0 none
      .ok (fun _ => .ok "hi")).trace = [] ∧
    (transcribe_audio ⟨some "text/plain", some "clip.txt", [104, 105]⟩ none 0 none
      .ok (fun _ => .ok "hi")).modelState = none := by decide

/-- C3: whenever the upload was staged (the staging event is in the trace), the
temporary file is gone once the call returns and the deletion event is in the
trace: the inner finally block of lines 122 to 125 deletes the staged file on
every exit path after staging, before the response or error leaves the
endpoint. -/
theorem temp_file_gone_after_staged_request (u : Upload) (st : Option Nat)
    (fresh : Nat) (sf : Option String) (load : LoadOutcome)
    (call : List Nat → ModelCallOutcome)
    (h : Event.staged u.content ∈ (transcribe_audio u st fresh sf load call).trace) :
    (transcribe_audio u st fresh sf load call).tempFileOnDisk = false ∧
    Event.deletedTempFile ∈ (transcribe_audio u st fresh sf load call).trace := by
  rcases transcribe_audio_branches u st fresh sf load call with
    ⟨e, hv, hr⟩ | ⟨hv, msg, hsf, hr⟩ | ⟨hv, hsf, msg, hg, hr⟩ |
    ⟨hv, hsf, hm, msg, hc, hr⟩ | ⟨hv, hsf, hm, text, hc, hr⟩
  · rw [hr] at h; simp at h
  · rw [hr] at h; simp at h
  · rw [hr]; simp
  · rw [hr]; simp [fullTrace]
  · rw [hr]; simp [fullTrace]

/-- Closed instance of the cleanup theorem at a staged request whose model call
fails. -/
theorem temp_file_gone_witness :
    (transcribe_audio ⟨some "audio/ogg", some "a.ogg", [7]⟩ none 0 none .ok
      (fun _ => .fail "boom")).tempFileOnDisk = false ∧
    Event.deletedTempFile ∈ (transcribe_audio ⟨some "audio/ogg", some "a.ogg", [7]⟩
      none 0 none .ok (fun _ => .fail "boom")).trace :=
  temp_file_gone_after_staged_request ⟨some "audio/ogg", some "a.ogg", [7]⟩ none 0
    none .ok (fun _ => .fail "boom") (by decide)

/-- C4: validation accepts any upload whose declared content-type contains
audio, and any upload whose lower-cased filename extension is in the
allow-list, independently of the byte content (validate_file_type never
receives the bytes); and a rejection implies that the content-type contains no
audio marker and that the filename is present with an extension outside the
allow-list — both checks failed. -/
theorem validation_two_tier_accept (ct fn : Option String) :
    (strContains (ct.getD "") "audio" = true → validate_file_type ct fn = none) ∧
    (∀ name, fn = some name → strLower (splitextExt name) ∈ allowedExts →
      validate_file_type ct fn = none) ∧
    (∀ d, validate_file_type ct fn = some (.httpExc 400 d) →
      strContains (ct.getD "") "audio" = false ∧
      ∃ name, fn = some name ∧ strLower (splitextExt name) ∉ allowedExts) := by
  refine ⟨?_, ?_, ?_⟩
  · intro h
    simp [validate_file_type, h]
  · intro name hfn hext
    cases hcond : (strContains (ct.getD "") "audio" || strContains (ct.getD "") "video/webm") with
    | true => simp [validate_file_type, hcond]
    | false => simp [validate_file_type, hcond, hfn, hext]
  · intro d hd
    by_cases hca : strContains (ct.getD "") "audio" = true
    · simp [validate_file_type, hca] at hd
    · have hca2 : strContains (ct.getD "") "audio" = false := by
        cases hb : strContains (ct.getD "") "audio"
        · rfl
        · exact absurd hb hca
      refine ⟨hca2, ?_⟩
      by_cases hcw : strContains (ct.getD "") "video/webm" = true
      · simp [validate_file_type, hca2, hcw] at hd
      · have hcw2 : strContains (ct.getD "") "video/webm" = false := by
          cases hb : strContains (ct.getD "") "video/webm"
          · rfl
          · exact absurd hb hcw
        cases fn with
        | none => simp [validate_file_type, hca2, hcw2] at hd
        | some name =>
          by_cases hext : strLower (splitextExt name) ∈ allowedExts
          · simp [validate_file_type, hca2, hcw2, hext] at hd
          · exact ⟨name, rfl, hext⟩

/-- Closed instances of the validation theorem: an audio content-type passes
whatever the filename, an allow-listed extension (here upper-cased in the
name) passes under an alien content-type, and a concrete rejection pins down
that both checks failed. -/
theorem validation_two_tier_witness :
    validate_file_type (some "audio/mpeg") (some "blob") = none ∧
    validate_file_type (some "application/octet-stream") (some "clip.WAV") = none ∧
    (strContains ((none : Option String).getD "") "audio" = false ∧
      ∃ name, (some "clip.txt" : Option String) = some name ∧
        strLower (splitextExt name) ∉ allowedExts) :=
  ⟨(validation_two_tier_accept (some "audio/mpeg") (some "blob")).1 (by decide),
   (validation_two_tier_accept (some "application/octet-stream") (some "clip.WAV")).2.1
     "clip.WAV" rfl (by decide),
   (validation_two_tier_accept none (some "clip.txt")).2.2
     "Unsupported file type: . Use webm, wav, mp3, m4a, or ogg" (by decide)⟩

/-- Iterating get_model from a set state never constructs and never changes the
state. -/
lemma run_get_model_loaded (m : Nat) (fresh : Nat) (loads : List LoadOutcome) :
    run_get_model (some m) fresh loads = (some m, 0) := by
  induction loads generalizing fresh with
  | nil => rfl
  | cons l ls ih => simp [run_get_model, get_model, ih]

/-- C5: a get_model call on a set state returns the cached handle with no
construction; a failing construction leaves the shared variable unset, so the
next call retries from scratch and a good load then constructs; iterating from
a set state never reconstructs; and any call sequence starting from the unset
state performs at most one successful construction in total. -/
theorem get_model_single_construction :
    (∀ m load fresh, get_model (some m) load fresh = ⟨.ok m, some m, 0⟩) ∧
    (∀ msg fresh, get_model none (.fail msg) fresh = ⟨.error msg, none, 0⟩) ∧
    (∀ fresh, get_model none .ok fresh = ⟨.ok fresh, some fresh, 1⟩) ∧
    (∀ m fresh loads, run_get_model (some m) fresh loads = (some m, 0)) ∧
    (∀ fresh loads, (run_get_model none fresh loads).2 ≤ 1) := by
  refine ⟨fun m load fresh => rfl, fun msg fresh => rfl, fun fresh => rfl,
    fun m fresh loads => run_get_model_loaded m fresh loads, ?_⟩
  intro fresh loads
  induction loads generalizing fresh with
  | nil => simp [run_get_model]
  | cons l ls ih =>
    cases l with
    | ok => simp [run_get_model, get_model, run_get_model_loaded]
    | fail msg => simpa [run_get_model, get_model] using ih (fresh + 1)

/-- C6: under a passing validation, every exception from staging, from model
construction or from the model invocation is caught at the endpoint boundary
and becomes an HTTP 500 response carrying the original message as its detail,
and the invocation-failure case shows exactly one invocation event in the
trace (no retry).  transcribe_audio is a total function into RunResult, so a
request failure always yields a response and never escapes the endpoint. -/
theorem endpoint_converts_exceptions (u : Upload) (st : Option Nat) (fresh : Nat)
    (load : LoadOutcome) (call : List Nat → ModelCallOutcome) (msg : String)
    (hv : validate_file_type u.content_type u.filename = none) :
    ((transcribe_audio u st fresh (some msg) load call).response = .error 500 msg) ∧
    ((get_model st load fresh).result = .error msg →
      (transcribe_audio u st fresh none load call).response = .error 500 msg) ∧
    (∀ m, (get_model st load fresh).result = .ok m → call u.content = .fail msg →
      (transcribe_audio u st fresh none load call).response = .error 500 msg ∧
      (transcribe_audio u st fresh none load call).trace = fullTrace u.content) := by
  refine ⟨by simp [transcribe_audio, hv], ?_, ?_⟩
  · intro hg
    simp [transcribe_audio, hv, hg]
  · intro m hg hc
    constructor <;> simp [transcribe_audio, hv, hg, hc]

/-- Closed instance of the conversion theorem: a failing model invocation on a
validated upload surfaces as HTTP 500 with the original message. -/
theorem endpoint_converts_witness :
    (transcribe_audio ⟨some "audio/webm", some "a.webm", [1]⟩ none 0 none .ok
      (fun _ => .fail "boom")).response = .error 500 "boom" :=
  ((endpoint_converts_exceptions ⟨some "audio/webm", some "a.webm", [1]⟩ none 0 .ok
    (fun _ => .fail "boom") "boom" (by decide)).2.2 0 rfl rfl).1

/-- C7: an empty upload under an audio content-type passes validation, its
empty byte sequence is staged and is exactly what the model receives, and a
failing model call surfaces as HTTP 500 carrying the model message — never as
a pre-validation rejection. -/
theorem empty_upload_not_prevalidated (ct : String) (fn : Option String)
    (st : Option Nat) (fresh : Nat) (load : LoadOutcome)
    (call : List Nat → ModelCallOutcome) (msg : String)
    (hct : strContains ct "audio" = true) :
    validate_file_type (some ct) fn = none ∧
    Event.staged [] ∈ (transcribe_audio ⟨some ct, fn, []⟩ st fresh none load call).trace ∧
    (∀ m, (get_model st load fresh).result = .ok m → call [] = .fail msg →
      (transcribe_audio ⟨some ct, fn, []⟩ st fresh none load call).response =
        .error 500 msg) := by
  have hv : validate_file_type (some ct) fn = none := by
    simp [validate_file_type, hct]
  refine ⟨hv, ?_, ?_⟩
  · rcases transcribe_audio_branches ⟨some ct, fn, []⟩ st fresh none load call with
      ⟨e, hv2, hr⟩ | ⟨hv2, msg2, hsf, hr⟩ | ⟨hv2, hsf, msg2, hg, hr⟩ |
      ⟨hv2, hsf, hm, msg2, hc, hr⟩ | ⟨hv2, hsf, hm, text, hc, hr⟩
    · exact absurd (hv.symm.trans hv2) (by simp)
    · exact absurd hsf (by simp)
    · rw [hr]; simp
    · rw [hr]; simp [fullTrace]
    · rw [hr]; simp [fullTrace]
  · intro m hg hc
    simp [transcribe_audio, hv, hg, hc]

/-- Closed instance of the empty-upload theorem with a model that rejects the
empty byte sequence. -/
theorem empty_upload_witness :
    validate_file_type (some "audio/webm") (some "clip.webm") = none ∧
    Event.staged [] ∈ (transcribe_audio ⟨some "audio/webm", some "clip.webm", []⟩
      none 0 none .ok (fun _ => .fail "empty")).trace ∧
    (transcribe_audio ⟨some "audio/webm", some "clip.webm", []⟩ none 0 none .ok
      (fun _ => .fail "empty")).response = .error 500 "empty" :=
  ⟨(empty_upload_not_prevalidated "audio/webm" (some "clip.webm") none 0 .ok
      (fun _ => .fail "empty") "empty" (by decide)).1,
   (empty_upload_not_prevalidated "audio/webm" (some "clip.webm") none 0 .ok
      (fun _ => .fail "empty") "empty" (by decide)).2.1,
   (empty_upload_not_prevalidated "audio/webm" (some "clip.webm") none 0 .ok
      (fun _ => .fail "empty") "empty" (by decide)).2.2 0 rfl rfl⟩

/-- C8: whenever the model is invoked in a request, the bytes it reads are
exactly the full upload byte sequence, and the trace is the full ordered trace
in which the staging event strictly precedes obtaining the model and invoking
it: a partial write is never handed to the model. -/
theorem staging_before_invocation (u : Upload) (st : Option Nat) (fresh : Nat)
    (sf : Option String) (load : LoadOutcome) (call : List Nat → ModelCallOutcome)
    (c : List Nat)
    (h : Event.invokedModel c ∈ (transcribe_audio u st fresh sf load call).trace) :
    c = u.content ∧
    (transcribe_audio u st fresh sf load call).trace = fullTrace u.content := by
  rcases transcribe_audio_branches u st fresh sf load call with
    ⟨e, hv, hr⟩ | ⟨hv, msg, hsf, hr⟩ | ⟨hv, hsf, msg, hg, hr⟩ |
    ⟨hv, hsf, hm, msg, hc, hr⟩ | ⟨hv, hsf, hm, text, hc, hr⟩
  · rw [hr] at h; simp at h
  · rw [hr] at h; simp at h
  · rw [hr] at h; simp at h
  · rw [hr] at h ⊢
    simp [fullTrace] at h ⊢
    exact h
  · rw [hr] at h ⊢
    simp [fullTrace] at h ⊢
    exact h

/-- Closed instance of the ordering theorem at a concrete request that reaches
the model. -/
theorem staging_before_witness :
    ([5] : List Nat) = (⟨some "audio/wav", some "a.wav", [5]⟩ : Upload).content ∧
    (transcribe_audio ⟨some "audio/wav", some "a.wav", [5]⟩ none 0 none .ok
      (fun _ => .ok "t")).trace =
      fullTrace (⟨some "audio/wav", some "a.wav", [5]⟩ : Upload).content :=
  staging_before_invocation ⟨some "audio/wav", some "a.wav", [5]⟩ none 0 none .ok
    (fun _ => .ok "t") [5] (by decide)

/-- C9: with no filename and a content-type containing neither audio nor
video/webm, the fallback extension check applies os.path.splitext to None and
raises TypeError, which the blanket handler converts into HTTP 500 — not the
HTTP 400 rejection a reader of the spec would expect; nothing is staged and
the model is never called (empty trace). -/
theorem missing_filename_gives_500 (ct : String) (content : List Nat)
    (st : Option Nat) (fresh : Nat) (sf : Option String) (load : LoadOutcome)
    (call : List Nat → ModelCallOutcome)
    (h1 : strContains ct "audio" = false) (h2 : strContains ct "video/webm" = false) :
    (transcribe_audio ⟨some ct, none, content⟩ st fresh sf load call).response =
      .error 500 "expected str, bytes or os.PathLike object, not NoneType" ∧
    (transcribe_audio ⟨some ct, none, content⟩ st fresh sf load call).trace = [] := by
  have hv : validate_file_type (some ct) none =
      some (.typeError "expected str, bytes or os.PathLike object, not NoneType") := by
    simp [validate_file_type, h1, h2]
  constructor <;> simp [transcribe_audio, hv, PyErr.str]

/-- Closed instance of the missing-filename theorem at content-type
text/plain. -/
theorem missing_filename_witness :
    (transcribe_audio ⟨some "text/plain", none, [0]⟩ none 0 none .ok
      (fun _ => .ok "x")).response =
      .error 500 "expected str, bytes or os.PathLike object, not NoneType" ∧
    (transcribe_audio ⟨some "text/plain", none, [0]⟩ none 0 none .ok
      (fun _ => .ok "x")).trace = [] :=
  missing_filename_gives_500 "text/plain" [0] none 0 none .ok
    (fun _ => .ok "x") (by decide) (by decide)

/-- C10: the health endpoint is a pure, total read of process state: it leaves
the shared model variable exactly as it was (so it can never trigger model
construction), and its model_loaded field is true exactly when the model has
already been constructed (the shared variable is set). -/
theorem health_check_frame (st : Option Nat) (cuda : Bool) :
    (health_check st cuda).2 = st ∧
    (health_check st cuda).1.model_loaded = st.isSome ∧
    (health_check st cuda).1.status = "healthy" ∧
    (health_check st cuda).1.cuda_available = cuda :=
  ⟨rfl, rfl, rfl, rfl⟩

end VoiceServer
